import Mathlib

/-!
Verification development for the RTP media-session proxy repository.

The embedding covers the three core components:
* `proxies/udp.go` — the UDP relay (`UdpProxy`, `NewUdpProxy`, `doclose`,
  `Close`) and the relay-pair allocator (`NewUdpProxyPair`);
* `protocols/session.go` — the generic session registry (`Sessions`,
  `SessionBase`, `Sessions.StopSession`, `SessionBase.Stop`);
* the AMP-to-RTSP orchestrator (`startSession`, `stopSession`,
  `cleanupSession`, and the self-termination watcher body `observeFire`).

Go networking effects are made explicit: an environment (`NetEnv`) decides
which local ports can be bound and which outbound dials succeed, and a
state (`NetState`) tracks the set of currently bound local ports.  Error
values are the strings the Go code builds with `fmt.Errorf`.  Goroutine
bodies are modelled as explicit state transitions; the one-shot primitives
(`sync.Once`, `helpers.OneshotCondition`) serialize racing callers, so
concurrent triggers are modelled as arbitrary sequences of calls.
-/

/-- Environment for socket operations: which local UDP ports accept a bind,
and which outbound targets accept a dial. -/
structure NetEnv where
  bindOk : Nat → Bool
  dialOk : String → Bool

/-- Global network state: the list of currently bound local UDP ports. -/
structure NetState where
  bound : List Nat
deriving DecidableEq

/-- The `UdpProxy` struct of `proxies/udp.go`.  `onceDone` is the state of
the `closeOnce sync.Once`; `closedSignal` counts messages sent on the
`proxyClosed` channel; `started` records that `Start()` launched the two
forwarding goroutines.  The `packets` queue and `Stats` sink carry no
information relevant to the claims and are omitted. -/
structure UdpProxy where
  listenPort : Nat
  target : String
  onceDone : Bool
  Closed : Bool
  Err : Option String
  closedSignal : Nat
  started : Bool
deriving DecidableEq

/-- The proxy value built by a fully successful `NewUdpProxy`. -/
def freshProxy (p : Nat) (t : String) : UdpProxy :=
  { listenPort := p, target := t, onceDone := false, Closed := false,
    Err := none, closedSignal := 0, started := false }

/-- `NewUdpProxy` of `proxies/udp.go`: bind the listen socket, then dial the
target; if the dial fails, the already-bound listen socket is closed before
returning (so the net state is unchanged on every error path).  Address
resolution of the well-formed `host:port` strings built by the callers in
this repository always succeeds, so the listen address is passed as its
port number. -/
def NewUdpProxy (env : NetEnv) (st : NetState) (port : Nat) (target : String) :
    Except String UdpProxy × NetState :=
  if env.bindOk port && !(st.bound.contains port) then
    if env.dialOk target then
      (Except.ok (freshProxy port target), { bound := port :: st.bound })
    else
      (Except.error ("dial failed: " ++ target), st)
  else
    (Except.error ("bind failed: " ++ toString port), st)

/-- `doclose` of `proxies/udp.go`: guarded by `closeOnce.Do`, it closes both
sockets (the bound listen port is released), records the terminal error,
sets `Closed` and sends one message on the `proxyClosed` channel. -/
def doclose (pr : UdpProxy) (st : NetState) (e : Option String) :
    UdpProxy × NetState :=
  if pr.onceDone then (pr, st)
  else
    ({ pr with onceDone := true, Closed := true, Err := e,
               closedSignal := pr.closedSignal + 1 },
     { bound := st.bound.erase pr.listenPort })

/-- `Close` of `proxies/udp.go`: caller-initiated close records a nil error. -/
def UdpProxy.Close (pr : UdpProxy) (st : NetState) : UdpProxy × NetState :=
  doclose pr st none

/-- `Start` of `proxies/udp.go` launches the two forwarding goroutines. -/
def UdpProxy.Start (pr : UdpProxy) : UdpProxy :=
  { pr with started := true }

/-- A sequence of `doclose` calls (explicit `Close` and error-triggered
closes in any serialization). -/
def docloseMany (pr : UdpProxy) (st : NetState) : List (Option String) → UdpProxy × NetState
  | [] => (pr, st)
  | e :: es =>
    let r := doclose pr st e
    docloseMany r.1 r.2 es

/-- The exhaustion error built by `NewUdpProxyPair`:
`fmt.Errorf("Failed to allocate UDP proxy pair in port range %v-%v", startPort, maxPort)`.
Note the Go code formats the *current* value of the mutated `startPort`
variable. -/
def exhaustMsg (p maxPort : Nat) : String :=
  "Failed to allocate UDP proxy pair in port range " ++ toString p ++ "-" ++ toString maxPort

/-- One iteration's attempt block of `NewUdpProxyPair` (`proxies/udp.go`
lines 67-76): build the first proxy at port `p`; if that succeeds, build
the second at `p + 1`; on failure of the second, `proxy1.Close()` runs
before the loop moves on (the returned state is the post-close state). -/
def pairAttempt (env : NetEnv) (st : NetState) (t1 t2 : String) (p : Nat) :
    Except String (UdpProxy × UdpProxy) × NetState :=
  match NewUdpProxy env st p t1 with
  | (Except.ok proxy1, st1) =>
    match NewUdpProxy env st1 (p + 1) t2 with
    | (Except.ok proxy2, st2) => (Except.ok (proxy1, proxy2), st2)
    | (Except.error e, _) => (Except.error e, (doclose proxy1 st1 none).2)
  | (Except.error e, _) => (Except.error e, st)

/-- The loop of `NewUdpProxyPair` (`proxies/udp.go` lines 65-85): attempt
the pair `(p, p+1)`; on success return both proxies; otherwise execute
`startPort += 2` and stop with the exhaustion error when the incremented
value exceeds `maxPort`, else retry.  Structural recursion needs a fuel
argument; the wrapper `NewUdpProxyPair` passes `maxPort + 1 - startPort`,
which never runs out: the loop only continues while the incremented port
is still at most `maxPort` (the fuel bound is maintained across
iterations, see `pairLoop_cases`), so the fuel-zero case is reached only
when the range check would stop the loop anyway, and it returns the same
exhaustion error the source builds there. -/
def pairLoop (env : NetEnv) (t1 t2 : String) (maxPort : Nat) :
    Nat → NetState → Nat → Except String (UdpProxy × UdpProxy) × NetState
  | 0, st, p =>
    match pairAttempt env st t1 t2 p with
    | (Except.ok pair, st2) => (Except.ok pair, st2)
    | (Except.error _, st') => (Except.error (exhaustMsg (p + 2) maxPort), st')
  | fuel + 1, st, p =>
    match pairAttempt env st t1 t2 p with
    | (Except.ok pair, st2) => (Except.ok pair, st2)
    | (Except.error _, st') =>
      if p + 2 > maxPort then (Except.error (exhaustMsg (p + 2) maxPort), st')
      else pairLoop env t1 t2 maxPort fuel st' (p + 2)

/-- `NewUdpProxyPair` of `proxies/udp.go`.  The `listenHost` parameter only
contributes to the textual listen addresses, which resolve back to the
candidate ports; it is kept for signature fidelity. -/
def NewUdpProxyPair (env : NetEnv) (st : NetState) (listenHost t1 t2 : String)
    (startPort maxPort : Nat) : Except String (UdpProxy × UdpProxy) × NetState :=
  pairLoop env t1 t2 maxPort (maxPort + 1 - startPort) st startPort

/-- Whether the allocation attempt at the pair `(p, p+1)` succeeds from
state `st` (first bind, then second bind after the first one). -/
def attemptOk (env : NetEnv) (st : NetState) (t1 t2 : String) (p : Nat) : Bool :=
  match NewUdpProxy env st p t1 with
  | (Except.ok _, st1) =>
    match NewUdpProxy env st1 (p + 1) t2 with
    | (Except.ok _, _) => true
    | (Except.error _, _) => false
  | (Except.error _, _) => false

/-- `q` is reachable from `p` by steps of 2 and every candidate pair
strictly before `q` fails to allocate. -/
def scannedFrom (env : NetEnv) (st : NetState) (t1 t2 : String) (p q : Nat) : Prop :=
  p ≤ q ∧ 2 ∣ (q - p) ∧
    ∀ r, p ≤ r → r < q → 2 ∣ (r - p) → attemptOk env st t1 t2 r = false

/-- Key-indexed lookup in an association list (a Go map read). -/
def lookupKey {α : Type} : List (String × α) → String → Option α
  | [], _ => none
  | (k', v) :: rest, k => if k' = k then some v else lookupKey rest k

/-- Key removal from an association list (Go `delete(m, k)`). -/
def removeKey {α : Type} : List (String × α) → String → List (String × α)
  | [], _ => []
  | (k', v) :: rest, k =>
    if k' = k then removeKey rest k else (k', v) :: removeKey rest k

/-- Key insertion / overwrite in an association list (Go `m[k] = v`). -/
def insertKey {α : Type} (ss : List (String × α)) (k : String) (v : α) :
    List (String × α) :=
  (k, v) :: removeKey ss k

/-- Modelled from the spec: `helpers.Observee` (the helpers package is not
under src/) — a unit of work that can be asked to stop; stopping it is a
state effect.  Its completion signalling (`sync.WaitGroup`) has no state
effect in this sequential model. -/
structure Observee (σ : Type) where
  stop : σ → σ

/-- The `Session` interface of `protocols/session.go`.  In the Go interface
`Cleanup()` returns no value; the model still lets a cleanup callback
report an error alongside its state effect so that spec claims about "the
error the cleanup returns" can be stated — faithfully to the source, that
second component has nowhere to go: `SessionBase.Stop` discards it and no
code in `protocols/session.go` ever assigns `CleanupErr`. -/
structure Session (σ : Type) where
  start : σ → σ
  observees : List (Observee σ)
  cleanup : σ → σ × Option String

/-- The `SessionBase` struct of `protocols/session.go`.  `stopped` is the
state of the `Stopped *helpers.OneshotCondition` field; modelled from the
spec, the one-shot condition is an atomic armed-to-fired gate whose
`Enable(f)` runs `f` exactly on the transition, and `Enabled()` reads the
flag.  The `Wg` wait group has no state effect in the sequential model. -/
structure SessionBase (σ : Type) where
  stopped : Bool
  CleanupErr : Option String
  session : Session σ

/-- The registry map `type Sessions map[interface{}]*SessionBase`,
specialized to string keys. -/
abbrev Sessions (σ : Type) := List (String × SessionBase σ)

/-- The body of the closure passed to `Stopped.Enable` in
`SessionBase.Stop` (`protocols/session.go` lines 85-91): stop every
observee, wait on the completion tracker, then call `session.Cleanup()`.
The cleanup callback's error component is dropped: the Go call
`base.session.Cleanup()` is a bare statement and `CleanupErr` is not
assigned. -/
def stopBody {σ : Type} (b : SessionBase σ) (st : σ) : σ :=
  let st1 := b.session.observees.foldl (fun s o => o.stop s) st
  (b.session.cleanup st1).1

/-- `SessionBase.Stop` of `protocols/session.go`: fire the one-shot gate;
the body runs only on the armed-to-fired transition. -/
def SessionBase.Stop {σ : Type} (b : SessionBase σ) (st : σ) : SessionBase σ × σ :=
  if b.stopped then (b, st)
  else ({ b with stopped := true }, stopBody b st)

/-- A sequence of `n` triggers of the stop gate (explicit stop requests and
the self-termination watcher, in any serialization). -/
def stopRepeat {σ : Type} : Nat → SessionBase σ → σ → SessionBase σ × σ
  | 0, b, st => (b, st)
  | n + 1, b, st =>
    let r := b.Stop st
    stopRepeat n r.1 r.2

/-- The error-string formatting of `Sessions.StopSession`
(`protocols/session.go` lines 56-62). -/
def cleanupErrStr : Option String → String
  | none => "(no error)"
  | some e => e

/-- `Sessions.NewSession` of `protocols/session.go`: build the bookkeeping
record, insert it, arrange the watcher (`observe` spawns a goroutine that
later calls `base.Stop`; as a state transition that trigger is one of the
`stopRepeat` calls), and start the session. -/
def Sessions.NewSession {σ : Type} (ss : Sessions σ) (st : σ) (key : String)
    (session : Session σ) : Sessions σ × σ × SessionBase σ :=
  let base : SessionBase σ := { stopped := false, CleanupErr := none, session := session }
  (insertKey ss key base, session.start st, base)

/-- `Sessions.Get` of `protocols/session.go`. -/
def Sessions.Get {σ : Type} (ss : Sessions σ) (key : String) : Option (Session σ) :=
  match lookupKey ss key with
  | some base => some base.session
  | none => none

/-- `Sessions.StopSession` of `protocols/session.go` lines 51-72: not
found yields an error and leaves the map alone; an already-fired gate
yields the "stopped prematurely" error embedding `CleanupErr` (or the
"(no error)" marker); otherwise the gate is fired synchronously and
`session.CleanupErr` is returned; in both existing-entry branches the
entry is deleted before returning. -/
def Sessions.StopSession {σ : Type} (ss : Sessions σ) (st : σ) (key : String) :
    Sessions σ × σ × Option String :=
  match lookupKey ss key with
  | none => (ss, st, some ("No session found for " ++ key))
  | some session =>
    if session.stopped then
      (removeKey ss key, st,
       some ("Session stopped prematurely: " ++ cleanupErrStr session.CleanupErr))
    else
      let r := session.Stop st
      (removeKey ss key, r.2, r.1.CleanupErr)

/-- Go `net.JoinHostPort` for the host strings used by this repository
(no IPv6 literals): `host ++ ":" ++ port`. -/
def joinHostPort (host : String) (port : Nat) : String :=
  host ++ ":" ++ toString port

/-- The `minPort` constant of the orchestrator source. -/
def minPort : Nat := 20000

/-- The `maxPort` constant of the orchestrator source. -/
def maxPort : Nat := 50000

/-- Modelled from the spec: the backend control-session handle returned by
`rtpClient.StartRtspClient` (the rtpClient package is not under src/). -/
structure RtspClient where
  mediaURL : String
  rtpPort : Nat
  logfile : String
deriving DecidableEq

/-- Go `url.URL.ResolveReference` as used by the orchestrator: the backend
media URL joins the configured base control-URL with the requested media
identifier. -/
def resolveRef (base path : String) : String :=
  base ++ "/" ++ path

/-- The `amp.StartSessionValue` descriptor. -/
structure StartSessionValue where
  ReceiverHost : String
  Port : Nat
  MediaFile : String
deriving DecidableEq

/-- The `amp.StopSessionValue` descriptor. -/
structure StopSessionValue where
  ReceiverHost : String
  Port : Nat
deriving DecidableEq

/-- The `proxySession` struct of the orchestrator source. -/
structure ProxySession where
  backend : RtspClient
  rtpProxy : UdpProxy
  rtcpProxy : UdpProxy
  port : Nat
  mediaFile : String
  client : String
deriving DecidableEq

/-- Orchestrator state: the `proxy.sessions` map plus the network state. -/
structure AmpState where
  sessions : List (String × ProxySession)
  net : NetState
deriving DecidableEq

/-- Orchestrator environment: socket environment plus the outcome of
`rtpClient.StartRtspClient(mediaURL, rtpPort, logfile)` (external backend
client, injected as part of the environment). -/
structure AmpEnv where
  net : NetEnv
  rtspStart : String → Nat → String → Except String RtspClient

/-- `startSession` of the orchestrator source (lines 105-138): compute the
client key, reject duplicates, allocate the relay pair targeting
`(receiverHost, port)` and `(receiverHost, port+1)`, start both relays,
start the backend RTSP client at the allocated RTP listen port, and on
full success store the composite session under the client key.  On
backend-start failure the wrapped error is returned; as in the source, the
two relays are NOT closed on that path. -/
def startSession (env : AmpEnv) (rtspURL proxyHost : String) (st : AmpState)
    (desc : StartSessionValue) : AmpState × Option String :=
  let client := joinHostPort desc.ReceiverHost desc.Port
  match lookupKey st.sessions client with
  | some _ => (st, some ("Session already exists for client " ++ client))
  | none =>
    let rtcpClient := joinHostPort desc.ReceiverHost (desc.Port + 1)
    match NewUdpProxyPair env.net st.net proxyHost client rtcpClient minPort maxPort with
    | (Except.error e, net') => ({ st with net := net' }, some e)
    | (Except.ok (rtpProxy, rtcpProxy), net') =>
      let rtpProxy := rtpProxy.Start
      let rtcpProxy := rtcpProxy.Start
      let rtpPort := rtpProxy.listenPort
      let mediaURL := resolveRef rtspURL desc.MediaFile
      let logfile := "amp-proxy-" ++ toString rtpPort ++ "-" ++ desc.MediaFile ++ ".log"
      match env.rtspStart mediaURL rtpPort logfile with
      | Except.error e =>
        ({ st with net := net' }, some ("Failed to start RTSP client: " ++ e))
      | Except.ok rtsp =>
        let session : ProxySession :=
          { backend := rtsp, mediaFile := desc.MediaFile, port := desc.Port,
            rtpProxy := rtpProxy, rtcpProxy := rtcpProxy, client := client }
        ({ sessions := insertKey st.sessions client session, net := net' }, none)

/-- `cleanupSession` of the orchestrator source (lines 150-155): stop the
backend (external, no modelled state effect), close both relays, delete
the map entry. -/
def cleanupSession (st : AmpState) (session : ProxySession) : AmpState :=
  let net1 := (doclose session.rtpProxy st.net none).2
  let net2 := (doclose session.rtcpProxy net1 none).2
  { sessions := removeKey st.sessions session.client, net := net2 }

/-- `stopSession` of the orchestrator source (lines 140-148). -/
def stopSession (st : AmpState) (desc : StopSessionValue) : AmpState × Option String :=
  let client := joinHostPort desc.ReceiverHost desc.Port
  match lookupKey st.sessions client with
  | none => (st, some ("Session not found for client " ++ client))
  | some session => (cleanupSession st session, none)

/-- The body of the watcher goroutine spawned by `observe` (orchestrator
source lines 163-169): after the backend session finishes on its own, the
ended hook runs (external) and `cleanupSession` tears the composite down —
including deleting the map entry. -/
def observeFire (st : AmpState) (session : ProxySession) : AmpState :=
  cleanupSession st session

/-- Test environment: every bind and dial succeeds. -/
def envAll : NetEnv :=
  { bindOk := fun _ => true, dialOk := fun _ => true }

/-- Test environment: no port can be bound. -/
def envNone : NetEnv :=
  { bindOk := fun _ => false, dialOk := fun _ => true }

/-- Test environment: ports below 20002 are pre-occupied. -/
def envFrom20002 : NetEnv :=
  { bindOk := fun p => decide (20002 ≤ p), dialOk := fun _ => true }

/-- Test environment: exactly port 20001 is pre-occupied. -/
def envSkip20001 : NetEnv :=
  { bindOk := fun p => decide (p ≠ 20001), dialOk := fun _ => true }

/-- Test fixture: the configured backend control base URL. -/
def baseURL : String := "rtsp://backend"

/-- Test fixture: a fresh orchestrator state. -/
def st0 : AmpState := { sessions := [], net := { bound := [] } }

/-- Test fixture: the start descriptor of the end-to-end example. -/
def descW : StartSessionValue :=
  { ReceiverHost := "127.0.0.1", Port := 6000, MediaFile := "movie.ts" }

/-- Test environment: backend start always succeeds. -/
def ampEnvOk : AmpEnv :=
  { net := envAll, rtspStart := fun u p l => Except.ok { mediaURL := u, rtpPort := p, logfile := l } }

/-- Test environment: backend start always fails with "connection refused". -/
def ampEnvRtspFail : AmpEnv :=
  { net := envAll, rtspStart := fun _ _ _ => Except.error "connection refused" }

/-- The orchestrator state after the successful start of `descW`. -/
def stAfterStart : AmpState :=
  (startSession ampEnvOk baseURL "10.0.0.1" st0 descW).1

/-- The composite session that the successful start of `descW` stores. -/
def sessW : ProxySession :=
  { backend := { mediaURL := "rtsp://backend/movie.ts", rtpPort := 20000,
                 logfile := "amp-proxy-20000-movie.ts.log" },
    rtpProxy := { freshProxy 20000 "127.0.0.1:6000" with started := true },
    rtcpProxy := { freshProxy 20001 "127.0.0.1:6001" with started := true },
    port := 6000, mediaFile := "movie.ts", client := "127.0.0.1:6000" }

/-- The orchestrator state after the backend of `sessW` self-terminates and
the watcher body has run. -/
def stSelfTerm : AmpState := observeFire stAfterStart sessW

/-- Test fixture: a trivial registry session over a counter state. -/
def sessTriv : Session Nat :=
  { start := id, observees := [], cleanup := fun s => (s, none) }

/-- Test fixture: a registry session whose one observee adds 10 and whose
cleanup adds 1 to the counter state (so the state counts body runs). -/
def sessCount : Session Nat :=
  { start := id, observees := [{ stop := fun s => s + 10 }],
    cleanup := fun s => (s + 1, none) }

/-- Test fixture: an armed entry wrapping `sessCount`. -/
def baseW : SessionBase Nat :=
  { stopped := false, CleanupErr := none, session := sessCount }

/-- Test fixture: an armed entry whose cleanup callback reports the error
"cleanup failed" (which the Go interface gives nowhere to return to). -/
def base3 : SessionBase Nat :=
  { stopped := false, CleanupErr := none,
    session := { start := id, observees := [], cleanup := fun s => (s + 1, some "cleanup failed") } }

/-- Test fixture: an entry whose gate has already fired with a captured
cleanup error. -/
def stoppedB : SessionBase Nat :=
  { stopped := true, CleanupErr := some "boom", session := sessTriv }

/-- Test fixture: an armed entry with no captured error. -/
def armedB : SessionBase Nat :=
  { stopped := false, CleanupErr := none, session := sessTriv }

/-- Test fixture: a registry holding one fired and one armed entry. -/
def ssW7 : Sessions Nat := [("a", stoppedB), ("b", armedB)]

theorem newUdpProxy_ok {env : NetEnv} {st : NetState} {p : Nat} {t : String}
    {pr : UdpProxy} {st' : NetState}
    (h : NewUdpProxy env st p t = (Except.ok pr, st')) :
    pr = freshProxy p t ∧ st' = { bound := p :: st.bound } := by
  unfold NewUdpProxy at h
  split at h
  · split at h
    · simp only [Prod.mk.injEq, Except.ok.injEq] at h
      exact ⟨h.1.symm, h.2.symm⟩
    · simp at h
  · simp at h

theorem newUdpProxy_err {env : NetEnv} {st : NetState} {p : Nat} {t : String}
    {e : String} {st' : NetState}
    (h : NewUdpProxy env st p t = (Except.error e, st')) : st' = st := by
  unfold NewUdpProxy at h
  split at h
  · split at h
    · simp at h
    · simp only [Prod.mk.injEq] at h
      exact h.2.symm
  · simp only [Prod.mk.injEq] at h
    exact h.2.symm

theorem doclose_fresh {pr : UdpProxy} (st : NetState) (e : Option String)
    (h : pr.onceDone = false) :
    doclose pr st e =
      ({ pr with onceDone := true, Closed := true, Err := e,
                 closedSignal := pr.closedSignal + 1 },
       { bound := st.bound.erase pr.listenPort }) := by
  simp [doclose, h]

theorem attempt_revert {env : NetEnv} {st : NetState} {p : Nat} {t : String}
    {pr : UdpProxy} {st1 : NetState}
    (h : NewUdpProxy env st p t = (Except.ok pr, st1)) :
    (doclose pr st1 none).2 = st := by
  obtain ⟨hpr, hst⟩ := newUdpProxy_ok h
  subst hpr; subst hst
  simp [doclose, freshProxy]

theorem docloseMany_done {pr : UdpProxy} {st : NetState} (h : pr.onceDone = true) :
    ∀ es, docloseMany pr st es = (pr, st)
  | [] => rfl
  | e :: es => by
    simp only [docloseMany, doclose, h, if_true]
    exact docloseMany_done h es

theorem lookup_insert_self {α : Type} (ss : List (String × α)) (k : String) (v : α) :
    lookupKey (insertKey ss k v) k = some v := by
  simp [insertKey, lookupKey]

theorem lookup_remove_self {α : Type} :
    ∀ (ss : List (String × α)) (k : String), lookupKey (removeKey ss k) k = none
  | [], _ => rfl
  | (k', v) :: rest, k => by
    by_cases hk : k' = k
    · simp only [removeKey, hk, if_true]
      exact lookup_remove_self rest k
    · simp only [removeKey, hk, if_false, lookupKey, if_neg hk]
      exact lookup_remove_self rest k

theorem scannedFrom_refl (env : NetEnv) (st : NetState) (t1 t2 : String) (p : Nat) :
    scannedFrom env st t1 t2 p p :=
  ⟨Nat.le_refl p, by omega, fun _ h1 h2 _ => absurd h2 (by omega)⟩

theorem scannedFrom_two (env : NetEnv) (st : NetState) (t1 t2 : String) (p : Nat)
    (h : attemptOk env st t1 t2 p = false) :
    scannedFrom env st t1 t2 p (p + 2) := by
  refine ⟨by omega, by omega, fun r h1 h2 h3 => ?_⟩
  have hr : r = p := by omega
  rwa [hr]

theorem scannedFrom_step (env : NetEnv) (st : NetState) (t1 t2 : String) (p q : Nat)
    (h : attemptOk env st t1 t2 p = false)
    (hs : scannedFrom env st t1 t2 (p + 2) q) : scannedFrom env st t1 t2 p q := by
  obtain ⟨hle, hdvd, hall⟩ := hs
  refine ⟨by omega, by omega, fun r h1 h2 h3 => ?_⟩
  rcases Nat.lt_or_ge r (p + 2) with hr | hr
  · have hr' : r = p := by omega
    rwa [hr']
  · exact hall r hr h2 (by omega)

theorem pairAttempt_cases (env : NetEnv) (st : NetState) (t1 t2 : String) (p : Nat) :
    (∃ e, pairAttempt env st t1 t2 p = (Except.error e, st) ∧
      attemptOk env st t1 t2 p = false)
    ∨ (pairAttempt env st t1 t2 p =
        (Except.ok (freshProxy p t1, freshProxy (p + 1) t2),
         { bound := (p + 1) :: p :: st.bound }) ∧
       attemptOk env st t1 t2 p = true) := by
  rcases h1 : NewUdpProxy env st p t1 with ⟨r1, st1⟩
  cases r1 with
  | ok proxy1 =>
    rcases h2 : NewUdpProxy env st1 (p + 1) t2 with ⟨r2, st2⟩
    cases r2 with
    | ok proxy2 =>
      right
      obtain ⟨hp1, hs1⟩ := newUdpProxy_ok h1
      obtain ⟨hp2, hs2⟩ := newUdpProxy_ok h2
      subst hp1; subst hp2; subst hs1; subst hs2
      constructor
      · simp only [pairAttempt, h1, h2]
      · simp [attemptOk, h1, h2]
    | error e2 =>
      left
      refine ⟨e2, ?_, ?_⟩
      · have hrev : (doclose proxy1 st1 none).2 = st := attempt_revert h1
        simp only [pairAttempt, h1, h2, hrev]
      · simp [attemptOk, h1, h2]
  | error e1 =>
    left
    refine ⟨e1, ?_, ?_⟩
    · simp only [pairAttempt, h1]
    · simp [attemptOk, h1]

theorem pairLoop_cases (env : NetEnv) (t1 t2 : String) (maxP : Nat) :
    ∀ (fuel : Nat) (st : NetState) (p : Nat), maxP + 1 - p ≤ fuel →
      (∃ e st_out, pairLoop env t1 t2 maxP fuel st p = (Except.error e, st_out) ∧
        st_out = st ∧
        ∃ q, e = exhaustMsg q maxP ∧ maxP < q ∧ p + 2 ≤ q ∧ scannedFrom env st t1 t2 p q)
      ∨ (∃ q st_out,
        pairLoop env t1 t2 maxP fuel st p =
          (Except.ok (freshProxy q t1, freshProxy (q + 1) t2), st_out) ∧
        st_out = { bound := (q + 1) :: q :: st.bound } ∧
        scannedFrom env st t1 t2 p q ∧ attemptOk env st t1 t2 q = true ∧
        (q = p ∨ q ≤ maxP)) := by
  intro fuel
  induction fuel with
  | zero =>
    intro st p hf
    rcases pairAttempt_cases env st t1 t2 p with ⟨e, hA, hF⟩ | ⟨hA, hT⟩
    · left
      refine ⟨exhaustMsg (p + 2) maxP, st, ?_, rfl, p + 2, rfl, by omega, by omega,
        scannedFrom_two env st t1 t2 p hF⟩
      simp only [pairLoop, hA]
    · right
      refine ⟨p, { bound := (p + 1) :: p :: st.bound }, ?_, rfl,
        scannedFrom_refl env st t1 t2 p, hT, Or.inl rfl⟩
      simp only [pairLoop, hA]
  | succ fuel ih =>
    intro st p hf
    rcases pairAttempt_cases env st t1 t2 p with ⟨e, hA, hF⟩ | ⟨hA, hT⟩
    · by_cases hcond : p + 2 > maxP
      · left
        refine ⟨exhaustMsg (p + 2) maxP, st, ?_, rfl, p + 2, rfl, by omega, by omega,
          scannedFrom_two env st t1 t2 p hF⟩
        simp only [pairLoop, hA, if_pos hcond]
      · have hstep : pairLoop env t1 t2 maxP (fuel + 1) st p =
            pairLoop env t1 t2 maxP fuel st (p + 2) := by
          simp only [pairLoop, hA, if_neg hcond]
        rw [hstep]
        have hf' : maxP + 1 - (p + 2) ≤ fuel := by omega
        rcases ih st (p + 2) hf' with
          ⟨e', st_out, heq, hso, q, hq, hqmax, hqge, hscan⟩ |
          ⟨q, st_out, heq, hso, hscan, hok, hqr⟩
        · exact Or.inl ⟨e', st_out, heq, hso, q, hq, hqmax, by omega,
            scannedFrom_step env st t1 t2 p q hF hscan⟩
        · refine Or.inr ⟨q, st_out, heq, hso,
            scannedFrom_step env st t1 t2 p q hF hscan, hok, Or.inr ?_⟩
          rcases hqr with hqr | hqr
          · omega
          · exact hqr
    · right
      refine ⟨p, { bound := (p + 1) :: p :: st.bound }, ?_, rfl,
        scannedFrom_refl env st t1 t2 p, hT, Or.inl rfl⟩
      simp only [pairLoop, hA]

theorem newUdpProxyPair_cases (env : NetEnv) (st : NetState) (host t1 t2 : String)
    (startPort maxP : Nat) :
    (∃ e st_out,
      NewUdpProxyPair env st host t1 t2 startPort maxP = (Except.error e, st_out) ∧
      st_out = st ∧
      ∃ q, e = exhaustMsg q maxP ∧ maxP < q ∧ startPort + 2 ≤ q ∧
        scannedFrom env st t1 t2 startPort q)
    ∨ (∃ q st_out,
      NewUdpProxyPair env st host t1 t2 startPort maxP =
        (Except.ok (freshProxy q t1, freshProxy (q + 1) t2), st_out) ∧
      st_out = { bound := (q + 1) :: q :: st.bound } ∧
      scannedFrom env st t1 t2 startPort q ∧ attemptOk env st t1 t2 q = true ∧
      (q = startPort ∨ q ≤ maxP)) :=
  pairLoop_cases env t1 t2 maxP (maxP + 1 - startPort) st startPort (Nat.le_refl _)

theorem stopRepeat_stopped {σ : Type} {b : SessionBase σ} (h : b.stopped = true) :
    ∀ (n : Nat) (st : σ), stopRepeat n b st = (b, st)
  | 0, _ => rfl
  | n + 1, st => by
    have hstop : b.Stop st = (b, st) := by simp [SessionBase.Stop, h]
    simp only [stopRepeat, hstop]
    exact stopRepeat_stopped h n st

theorem stop_armed {σ : Type} (b : SessionBase σ) (st : σ) (hb : b.stopped = false) :
    b.Stop st = ({ b with stopped := true }, stopBody b st) := by
  simp [SessionBase.Stop, hb]

theorem startSession_ok_inv {env : AmpEnv} {rtspURL proxyHost : String}
    {st st' : AmpState} {desc : StartSessionValue}
    (h : startSession env rtspURL proxyHost st desc = (st', none)) :
    ∃ sess, st'.sessions =
        insertKey st.sessions (joinHostPort desc.ReceiverHost desc.Port) sess ∧
      sess.client = joinHostPort desc.ReceiverHost desc.Port ∧
      sess.rtpProxy.target = joinHostPort desc.ReceiverHost desc.Port ∧
      sess.rtcpProxy.target = joinHostPort desc.ReceiverHost (desc.Port + 1) := by
  unfold startSession at h
  dsimp only at h
  split at h
  · simp at h
  · split at h
    · simp at h
    · rename_i rtpProxy rtcpProxy net' heq
      split at h
      · simp at h
      · rename_i rtsp hrtsp
        rcases newUdpProxyPair_cases env.net st.net proxyHost
            (joinHostPort desc.ReceiverHost desc.Port)
            (joinHostPort desc.ReceiverHost (desc.Port + 1)) minPort maxPort with
          ⟨e, st_out, heq2, _⟩ | ⟨q, st_out, heq2, _, _, _, _⟩
        · rw [heq] at heq2
          simp at heq2
        · rw [heq] at heq2
          have hrtp : rtpProxy = freshProxy q (joinHostPort desc.ReceiverHost desc.Port) := by
            simp only [Prod.mk.injEq, Except.ok.injEq] at heq2
            exact heq2.1.1
          have hrtcp : rtcpProxy =
              freshProxy (q + 1) (joinHostPort desc.ReceiverHost (desc.Port + 1)) := by
            simp only [Prod.mk.injEq, Except.ok.injEq] at heq2
            exact heq2.1.2
          simp only [Prod.mk.injEq] at h
          refine ⟨{ backend := rtsp, mediaFile := desc.MediaFile, port := desc.Port,
                    rtpProxy := rtpProxy.Start, rtcpProxy := rtcpProxy.Start,
                    client := joinHostPort desc.ReceiverHost desc.Port }, ?_, rfl, ?_, ?_⟩
          · rw [← h.1]
          · rw [hrtp]; rfl
          · rw [hrtcp]; rfl

/-- C4 counterexample: with no bindable port and range 20000-20001, the
exhaustion error of `NewUdpProxyPair` names the range "20002-20001" (the
port variable after its final increment), not the attempted range
"20000-20001" that the claim says it names. -/
theorem newUdpProxyPair_exhaustion_range_cex :
    NewUdpProxyPair envNone { bound := [] } "h" "t1" "t2" 20000 20001 =
      (Except.error "Failed to allocate UDP proxy pair in port range 20002-20001",
       { bound := [] }) ∧
    "Failed to allocate UDP proxy pair in port range 20002-20001" ≠
      "Failed to allocate UDP proxy pair in port range 20000-20001" :=
  ⟨rfl, by decide⟩

/-- C4 (amended): `NewUdpProxyPair` tries candidate port pairs `(p, p+1)`
starting at `startPort`, adding 2 after each failed attempt, stopping when
both relays bind or the incremented port exceeds `maxPort`; when no pair
is available it fails with an exhaustion error naming the range from the
first candidate exceeding `maxPort` (the mutated loop variable, at least
`startPort + 2`) through `maxPort`, not from the original `startPort`. -/
theorem newUdpProxyPair_scan_spec (env : NetEnv) (st : NetState)
    (host t1 t2 : String) (startPort maxP : Nat) :
    (∀ e st_out,
      NewUdpProxyPair env st host t1 t2 startPort maxP = (Except.error e, st_out) →
      ∃ q, maxP < q ∧ startPort + 2 ≤ q ∧ scannedFrom env st t1 t2 startPort q ∧
        e = exhaustMsg q maxP)
    ∧ (∀ pr1 pr2 st_out,
      NewUdpProxyPair env st host t1 t2 startPort maxP = (Except.ok (pr1, pr2), st_out) →
      ∃ q, scannedFrom env st t1 t2 startPort q ∧ attemptOk env st t1 t2 q = true ∧
        (q = startPort ∨ q ≤ maxP) ∧ pr1.listenPort = q ∧ pr2.listenPort = q + 1) := by
  constructor
  · intro e st_out h
    rcases newUdpProxyPair_cases env st host t1 t2 startPort maxP with
      ⟨e', st_out', heq, hst, q, hq, hqmax, hqge, hscan⟩ |
      ⟨q, st_out', heq, h1, h2, h3, h4⟩
    · rw [h] at heq
      simp only [Prod.mk.injEq, Except.error.injEq] at heq
      exact ⟨q, hqmax, hqge, hscan, by rw [heq.1]; exact hq⟩
    · rw [h] at heq
      simp at heq
  · intro pr1 pr2 st_out h
    rcases newUdpProxyPair_cases env st host t1 t2 startPort maxP with
      ⟨e', st_out', heq, hst, q, hq, hqmax, hqge, hscan⟩ |
      ⟨q, st_out', heq, h1, h2, h3, h4⟩
    · rw [h] at heq
      simp at heq
    · rw [h] at heq
      simp only [Prod.mk.injEq, Except.ok.injEq] at heq
      refine ⟨q, h2, h3, h4, ?_, ?_⟩
      · rw [heq.1.1]; rfl
      · rw [heq.1.2]; rfl

/-- C4 witness: in the fully occupied range 20000-20001 the error branch
fires (naming 20002-20001), and with ports from 20002 free the scan of
range 20000-20010 succeeds at the pair (20002, 20003). -/
theorem newUdpProxyPair_scan_spec_witness :
    (∃ q, 20001 < q ∧ 20000 + 2 ≤ q ∧ scannedFrom envNone { bound := [] } "t1" "t2" 20000 q ∧
      exhaustMsg 20002 20001 = exhaustMsg q 20001) ∧
    (∃ q, scannedFrom envFrom20002 { bound := [] } "t1" "t2" 20000 q ∧
      attemptOk envFrom20002 { bound := [] } "t1" "t2" q = true ∧
      (q = 20000 ∨ q ≤ 20010) ∧ (freshProxy 20002 "t1").listenPort = q ∧
      (freshProxy 20003 "t2").listenPort = q + 1) := by
  constructor
  · exact (newUdpProxyPair_scan_spec envNone { bound := [] } "h" "t1" "t2" 20000 20001).1
      (exhaustMsg 20002 20001) { bound := [] } rfl
  · exact (newUdpProxyPair_scan_spec envFrom20002 { bound := [] } "h" "t1" "t2" 20000 20010).2
      (freshProxy 20002 "t1") (freshProxy 20003 "t2") { bound := [20003, 20002] } rfl

/-- C6: the relay-pair allocation leaks no bound socket: on exhaustion the
network state is exactly the input state; on success the only new bound
ports are the two live (not closed) relays' listen ports; and within one
attempt, if the first relay binds and the second fails, the first relay is
closed (its `Closed` flag set, its port released back to the input state)
before the loop tries the next pair. -/
theorem newUdpProxyPair_no_socket_leak (env : NetEnv) (st : NetState)
    (host t1 t2 : String) (startPort maxP : Nat) :
    (∀ e st_out,
      NewUdpProxyPair env st host t1 t2 startPort maxP = (Except.error e, st_out) →
      st_out = st)
    ∧ (∀ pr1 pr2 st_out,
      NewUdpProxyPair env st host t1 t2 startPort maxP = (Except.ok (pr1, pr2), st_out) →
      st_out.bound = pr2.listenPort :: pr1.listenPort :: st.bound ∧
      pr1.Closed = false ∧ pr2.Closed = false)
    ∧ (∀ p pr1 st1 e2 st2,
      NewUdpProxy env st p t1 = (Except.ok pr1, st1) →
      NewUdpProxy env st1 (p + 1) t2 = (Except.error e2, st2) →
      (doclose pr1 st1 none).1.Closed = true ∧ (doclose pr1 st1 none).2 = st ∧
      pairAttempt env st t1 t2 p = (Except.error e2, (doclose pr1 st1 none).2)) := by
  refine ⟨?_, ?_, ?_⟩
  · intro e st_out h
    rcases newUdpProxyPair_cases env st host t1 t2 startPort maxP with
      ⟨e', st_out', heq, hst, q, hq, hqmax, hqge, hscan⟩ |
      ⟨q, st_out', heq, h1, h2, h3, h4⟩
    · rw [h] at heq
      simp only [Prod.mk.injEq, Except.error.injEq] at heq
      rw [heq.2]
      exact hst
    · rw [h] at heq
      simp at heq
  · intro pr1 pr2 st_out h
    rcases newUdpProxyPair_cases env st host t1 t2 startPort maxP with
      ⟨e', st_out', heq, hst, q, hq, hqmax, hqge, hscan⟩ |
      ⟨q, st_out', heq, h1, h2, h3, h4⟩
    · rw [h] at heq
      simp at heq
    · rw [h] at heq
      simp only [Prod.mk.injEq, Except.ok.injEq] at heq
      refine ⟨?_, ?_, ?_⟩
      · rw [heq.1.1, heq.1.2, heq.2, h1]
        rfl
      · rw [heq.1.1]; rfl
      · rw [heq.1.2]; rfl
  · intro p pr1 st1 e2 st2 h1 h2
    obtain ⟨hpr, hst1⟩ := newUdpProxy_ok h1
    refine ⟨?_, attempt_revert h1, ?_⟩
    · rw [hpr]; rfl
    · simp only [pairAttempt, h1, h2]

/-- C6 witness: with only port 20001 occupied, the attempt at (20000, 20001)
binds the first relay, fails the second, closes the first (flag set, port
released), and the overall allocation then succeeds at (20002, 20003) with
both relays live. -/
theorem newUdpProxyPair_no_socket_leak_witness :
    ((doclose (freshProxy 20000 "t1") { bound := [20000] } none).1.Closed = true ∧
     (doclose (freshProxy 20000 "t1") { bound := [20000] } none).2 = { bound := [] } ∧
     pairAttempt envSkip20001 { bound := [] } "t1" "t2" 20000 =
       (Except.error "bind failed: 20001",
        (doclose (freshProxy 20000 "t1") { bound := [20000] } none).2)) ∧
    (({ bound := [20003, 20002] } : NetState).bound =
       (freshProxy 20003 "t2").listenPort :: (freshProxy 20002 "t1").listenPort ::
         ({ bound := [] } : NetState).bound ∧
     (freshProxy 20002 "t1").Closed = false ∧ (freshProxy 20003 "t2").Closed = false) := by
  constructor
  · exact (newUdpProxyPair_no_socket_leak envSkip20001 { bound := [] } "h" "t1" "t2"
      20000 20010).2.2 20000 (freshProxy 20000 "t1") { bound := [20000] }
      "bind failed: 20001" { bound := [20000] } rfl rfl
  · exact (newUdpProxyPair_no_socket_leak envSkip20001 { bound := [] } "h" "t1" "t2"
      20000 20010).2.1 (freshProxy 20002 "t1") (freshProxy 20003 "t2")
      { bound := [20003, 20002] } rfl

/-- C10: the allocator attempts the pair at the initial `startPort` before
any range check — if that first attempt succeeds, the call succeeds at
`startPort` even when `startPort` already exceeds `maxPort`; and the
exhaustion check is evaluated only after a failed attempt, on the
incremented value: any exhaustion error names a port at least
`startPort + 2`. -/
theorem newUdpProxyPair_first_attempt_before_range_check (env : NetEnv)
    (st : NetState) (host t1 t2 : String) (startPort maxP : Nat) :
    (attemptOk env st t1 t2 startPort = true →
      NewUdpProxyPair env st host t1 t2 startPort maxP =
        (Except.ok (freshProxy startPort t1, freshProxy (startPort + 1) t2),
         { bound := (startPort + 1) :: startPort :: st.bound }))
    ∧ (∀ e st_out,
      NewUdpProxyPair env st host t1 t2 startPort maxP = (Except.error e, st_out) →
      ∃ q, startPort + 2 ≤ q ∧ maxP < q ∧ e = exhaustMsg q maxP) := by
  constructor
  · intro hT
    rcases pairAttempt_cases env st t1 t2 startPort with ⟨e, hA, hF⟩ | ⟨hA, _⟩
    · rw [hF] at hT
      exact absurd hT (by decide)
    · unfold NewUdpProxyPair
      cases maxP + 1 - startPort with
      | zero => simp only [pairLoop, hA]
      | succ fuel => simp only [pairLoop, hA]
  · intro e st_out h
    rcases newUdpProxyPair_cases env st host t1 t2 startPort maxP with
      ⟨e', st_out', heq, hst, q, hq, hqmax, hqge, hscan⟩ |
      ⟨q, st_out', heq, h1, h2, h3, h4⟩
    · rw [h] at heq
      simp only [Prod.mk.injEq, Except.error.injEq] at heq
      exact ⟨q, hqge, hqmax, by rw [heq.1]; exact hq⟩
    · rw [h] at heq
      simp at heq

/-- C10 witness: with every port free, an allocation whose `startPort`
60000 already exceeds `maxPort` 50000 still succeeds on the very first
attempt at (60000, 60001). -/
theorem newUdpProxyPair_first_attempt_before_range_check_witness :
    attemptOk envAll { bound := [] } "t1" "t2" 60000 = true ∧
    NewUdpProxyPair envAll { bound := [] } "h" "t1" "t2" 60000 50000 =
      (Except.ok (freshProxy 60000 "t1", freshProxy 60001 "t2"),
       { bound := [60001, 60000] }) :=
  ⟨rfl, (newUdpProxyPair_first_attempt_before_range_check envAll { bound := [] }
    "h" "t1" "t2" 60000 50000).1 rfl⟩

/-- C8: over any serialized sequence of `doclose` calls on a relay whose
`sync.Once` has not fired, the shutdown body executes exactly on the first
call (every later call is a no-op, so the whole sequence equals the first
call alone); afterwards the relay is and stays closed, the terminal error
recorded is the first call's error (nil for a caller-initiated
`Close`) and is never overwritten, and the closed notification is
signalled exactly once. -/
theorem doclose_exactly_once (pr : UdpProxy) (st : NetState) (e : Option String)
    (es : List (Option String)) (h : pr.onceDone = false) :
    docloseMany pr st (e :: es) = doclose pr st e ∧
    (docloseMany pr st (e :: es)).1.Closed = true ∧
    (docloseMany pr st (e :: es)).1.Err = e ∧
    (docloseMany pr st (e :: es)).1.closedSignal = pr.closedSignal + 1 := by
  have h1 := doclose_fresh st e h
  have hdone : (doclose pr st e).1.onceDone = true := by rw [h1]
  have h2 : docloseMany pr st (e :: es) = doclose pr st e := by
    show docloseMany (doclose pr st e).1 (doclose pr st e).2 es = doclose pr st e
    rw [docloseMany_done hdone es]
  refine ⟨h2, ?_, ?_, ?_⟩
  · rw [h2, h1]
  · rw [h2, h1]
  · rw [h2, h1]

/-- C8 witness: a freshly bound relay first closed by an internal error
close carrying no... rather by a caller-initiated `Close` (nil error) and
then hit by an error close "boom": the terminal error stays nil, the relay
is closed, and exactly one closed notification was sent. -/
theorem doclose_exactly_once_witness :
    (freshProxy 5 "t").onceDone = false ∧
    docloseMany (freshProxy 5 "t") { bound := [5] } (none :: [some "boom"]) =
      doclose (freshProxy 5 "t") { bound := [5] } none ∧
    (docloseMany (freshProxy 5 "t") { bound := [5] } (none :: [some "boom"])).1.Err = none ∧
    (docloseMany (freshProxy 5 "t") { bound := [5] } (none :: [some "boom"])).1.closedSignal = 1 := by
  have h := doclose_exactly_once (freshProxy 5 "t") { bound := [5] } none [some "boom"] rfl
  exact ⟨rfl, h.1, h.2.2.1, h.2.2.2⟩

/-- C2: the stop gate of a registry entry fires its body exactly once, no
matter how many triggers (the self-termination watcher and explicit stop
requests, in any serialization) hit it: any sequence of `n ≥ 1` calls to
`SessionBase.Stop` on an armed entry equals the single execution of the
gate body (stop all observees, wait, run cleanup), and the gate is fired
afterwards. -/
theorem sessionBase_stop_exactly_once {σ : Type} (b : SessionBase σ) (st : σ)
    (n : Nat) (hn : 1 ≤ n) (hb : b.stopped = false) :
    stopRepeat n b st = ({ b with stopped := true }, stopBody b st) ∧
    (stopRepeat n b st).1.stopped = true := by
  obtain ⟨m, rfl⟩ : ∃ m, n = m + 1 := ⟨n - 1, by omega⟩
  have h1 := stop_armed b st hb
  have h2 : stopRepeat (m + 1) b st = ({ b with stopped := true }, stopBody b st) := by
    simp only [stopRepeat, h1]
    exact stopRepeat_stopped rfl m (stopBody b st)
  exact ⟨h2, by rw [h2]⟩

/-- C2 witness: three racing triggers on an armed entry whose observee adds
10 and whose cleanup adds 1 to a counter: the final counter is 11, i.e.
the body (observee stop + cleanup) ran exactly once, and the gate is
fired. -/
theorem sessionBase_stop_exactly_once_witness :
    (1 ≤ 3 ∧ baseW.stopped = false) ∧
    stopRepeat 3 baseW 0 = ({ baseW with stopped := true }, stopBody baseW 0) ∧
    (stopRepeat 3 baseW 0).2 = 11 ∧ (stopRepeat 3 baseW 0).1.stopped = true := by
  have h := sessionBase_stop_exactly_once baseW 0 3 (by decide) rfl
  exact ⟨⟨by decide, rfl⟩, h.1, rfl, h.2⟩

/-- C3 counterexample: a session whose cleanup callback reports the error
"cleanup failed": after the gate fires, the entry's `CleanupErr` field is
still `none` (the gate body never writes it — the Go `Cleanup()` interface
method has no return value and `CleanupErr` is never assigned in
`protocols/session.go`), and the firing `StopSession` returns `none`, not
the claimed captured cleanup error. -/
theorem stopSession_cleanup_error_not_captured_cex :
    (base3.session.cleanup 0).2 = some "cleanup failed" ∧
    (base3.Stop 0).1.CleanupErr = none ∧
    (Sessions.StopSession [("k", base3)] 0 "k").2.2 = none ∧
    (none : Option String) ≠ some "cleanup failed" :=
  ⟨rfl, rfl, rfl, by decide⟩

/-- C3 (amended): when a stop-one call fires an armed entry's gate, the gate
body does invoke the session's cleanup callback (the resulting state is the
cleanup's state output after all observees were stopped), but the cleanup
error field is not written — it keeps its prior value — and the stop-one
call returns that prior `CleanupErr` value (nil unless something outside
the registry wrote the field), not an error produced by the callback. -/
theorem sessionBase_stop_preserves_cleanupErr {σ : Type} (ss : Sessions σ)
    (b : SessionBase σ) (st : σ) (key : String)
    (hb : b.stopped = false) (hk : lookupKey ss key = some b) :
    (b.Stop st).1.CleanupErr = b.CleanupErr ∧
    (b.Stop st).2 =
      (b.session.cleanup (b.session.observees.foldl (fun s o => o.stop s) st)).1 ∧
    Sessions.StopSession ss st key = (removeKey ss key, (b.Stop st).2, b.CleanupErr) := by
  have h1 := stop_armed b st hb
  refine ⟨by rw [h1], by rw [h1]; rfl, ?_⟩
  simp only [Sessions.StopSession, hk, hb]
  simp only [h1]
  rfl

/-- C3 witness: firing the gate of the armed entry `base3` (whose cleanup
increments the counter and reports "cleanup failed"): the field stays
`none`, the state shows cleanup ran, and `StopSession` returns the prior
`none`. -/
theorem sessionBase_stop_preserves_cleanupErr_witness :
    base3.stopped = false ∧
    (base3.Stop 0).1.CleanupErr = base3.CleanupErr ∧
    (base3.Stop 0).2 =
      (base3.session.cleanup (base3.session.observees.foldl (fun s o => o.stop s) 0)).1 ∧
    Sessions.StopSession [("k", base3)] 0 "k" =
      (removeKey [("k", base3)] "k", (base3.Stop 0).2, base3.CleanupErr) := by
  have h := sessionBase_stop_preserves_cleanupErr [("k", base3)] base3 0 "k" rfl rfl
  exact ⟨rfl, h.1, h.2.1, h.2.2⟩

/-- C7: the registry's stop-one contract: with no entry for the key it
fails with the "No session found" error and returns the map unchanged;
with an entry whose gate already fired it returns the "stopped
prematurely" error embedding the captured cleanup error (or the sentinel
"(no error)" marker); and whenever an entry exists — already fired or not —
the entry is removed from the returned map. -/
theorem stopSession_registry_contract {σ : Type} (ss : Sessions σ) (st : σ)
    (key : String) :
    (lookupKey ss key = none →
      Sessions.StopSession ss st key = (ss, st, some ("No session found for " ++ key)))
    ∧ (∀ b, lookupKey ss key = some b → b.stopped = true →
      Sessions.StopSession ss st key =
        (removeKey ss key, st,
         some ("Session stopped prematurely: " ++ cleanupErrStr b.CleanupErr)))
    ∧ (∀ b, lookupKey ss key = some b → b.stopped = false →
      (Sessions.StopSession ss st key).1 = removeKey ss key ∧
      (Sessions.StopSession ss st key).2.2 = b.CleanupErr) := by
  refine ⟨?_, ?_, ?_⟩
  · intro h
    simp only [Sessions.StopSession, h]
  · intro b hk hs
    simp only [Sessions.StopSession, hk, hs]
    rfl
  · intro b hk hs
    simp only [Sessions.StopSession, hk, hs]
    constructor
    · rfl
    · show (b.Stop st).1.CleanupErr = b.CleanupErr
      rw [stop_armed b st hs]

/-- C7 witness: on a registry with a fired entry "a" (captured error
"boom") and an armed entry "b": stopping the unknown key "zz" fails with
not-found and leaves the map alone; stopping "a" reports the premature
error embedding "boom" and removes the entry; stopping "b" fires the gate,
removes the entry and returns its (nil) cleanup error. -/
theorem stopSession_registry_contract_witness :
    Sessions.StopSession ssW7 0 "zz" =
      (ssW7, 0, some ("No session found for " ++ "zz")) ∧
    Sessions.StopSession ssW7 0 "a" =
      (removeKey ssW7 "a", 0,
       some ("Session stopped prematurely: " ++ cleanupErrStr stoppedB.CleanupErr)) ∧
    (Sessions.StopSession ssW7 0 "b").1 = removeKey ssW7 "b" ∧
    (Sessions.StopSession ssW7 0 "b").2.2 = armedB.CleanupErr := by
  refine ⟨(stopSession_registry_contract ssW7 0 "zz").1 rfl,
    (stopSession_registry_contract ssW7 0 "a").2.1 stoppedB rfl rfl,
    (stopSession_registry_contract ssW7 0 "b").2.2 armedB rfl rfl⟩

/-- C9: `startSession` keys the request by the joined `host:port` of
(receiverHost, port); if that key is already in the session map the request
fails with the "already exists" error and the whole state — including the
network state, so no allocation — is unchanged; on success the stored
composite session targets (receiverHost, port) for RTP and
(receiverHost, port+1) for RTCP and sits in the session map under the
client key. -/
theorem startSession_key_and_targets (env : AmpEnv) (rtspURL proxyHost : String)
    (st : AmpState) (desc : StartSessionValue) :
    (∀ s0, lookupKey st.sessions (joinHostPort desc.ReceiverHost desc.Port) = some s0 →
      startSession env rtspURL proxyHost st desc =
        (st, some ("Session already exists for client " ++
          joinHostPort desc.ReceiverHost desc.Port)))
    ∧ (∀ st', startSession env rtspURL proxyHost st desc = (st', none) →
      ∃ sess, lookupKey st'.sessions (joinHostPort desc.ReceiverHost desc.Port) = some sess ∧
        sess.client = joinHostPort desc.ReceiverHost desc.Port ∧
        sess.rtpProxy.target = joinHostPort desc.ReceiverHost desc.Port ∧
        sess.rtcpProxy.target = joinHostPort desc.ReceiverHost (desc.Port + 1)) := by
  constructor
  · intro s0 h
    unfold startSession
    dsimp only
    simp only [h]
  · intro st' h
    obtain ⟨sess, hsessions, hclient, hrtp, hrtcp⟩ := startSession_ok_inv h
    refine ⟨sess, ?_, hclient, hrtp, hrtcp⟩
    rw [hsessions]
    exact lookup_insert_self _ _ _

/-- C9 witness: starting `descW` twice on a fresh orchestrator — the second
start fails with "already exists" and leaves everything unchanged; the
first stored the composite under "127.0.0.1:6000" targeting 127.0.0.1:6000
(RTP) and 127.0.0.1:6001 (RTCP). -/
theorem startSession_key_and_targets_witness :
    startSession ampEnvOk baseURL "10.0.0.1" stAfterStart descW =
      (stAfterStart, some ("Session already exists for client " ++
        joinHostPort "127.0.0.1" 6000)) ∧
    (∃ sess, lookupKey stAfterStart.sessions (joinHostPort "127.0.0.1" 6000) = some sess ∧
      sess.client = joinHostPort "127.0.0.1" 6000 ∧
      sess.rtpProxy.target = joinHostPort "127.0.0.1" 6000 ∧
      sess.rtcpProxy.target = joinHostPort "127.0.0.1" (6000 + 1)) := by
  constructor
  · exact (startSession_key_and_targets ampEnvOk baseURL "10.0.0.1" stAfterStart descW).1
      sessW rfl
  · exact (startSession_key_and_targets ampEnvOk baseURL "10.0.0.1" st0 descW).2
      stAfterStart rfl

/-- C1 (the source violates the claim here): when relay allocation succeeds
and the backend RTSP client fails to start, `startSession` returns the
wrapped error and no registry entry exists for the client key — but the
two allocated relays are NOT released: the source returns without calling
`Close` on either proxy, so ports 20000 and 20001 stay bound. -/
theorem startSession_backend_start_failure_keeps_relays_bound :
    startSession ampEnvRtspFail baseURL "10.0.0.1" st0 descW =
      ({ sessions := [], net := { bound := [20001, 20000] } },
       some "Failed to start RTSP client: connection refused") ∧
    ({ sessions := [], net := { bound := [20001, 20000] } } : AmpState).net.bound ≠ [] :=
  ⟨rfl, by decide⟩

/-- C5 counterexample: after a successful start, the backend terminates on
its own and the watcher body runs, removing the orchestrator's map entry;
the later explicit stop then returns the generic "Session not found"
error, not the distinguished "Session stopped prematurely" error the claim
requires. -/
theorem stopSession_after_self_termination_not_found_cex :
    (startSession ampEnvOk baseURL "10.0.0.1" st0 descW).2 = none ∧
    lookupKey stAfterStart.sessions "127.0.0.1:6000" = some sessW ∧
    lookupKey stSelfTerm.sessions "127.0.0.1:6000" = none ∧
    stopSession stSelfTerm { ReceiverHost := "127.0.0.1", Port := 6000 } =
      (stSelfTerm, some "Session not found for client 127.0.0.1:6000") ∧
    ("Session not found for client 127.0.0.1:6000" : String) ≠
      "Session stopped prematurely: (no error)" :=
  ⟨rfl, rfl, rfl, rfl, by decide⟩

/-- C5 (amended): if the backend self-terminates before any explicit stop
and the watcher's cleanup has run, a later explicit stop for that client
key returns the generic "Session not found" error: the orchestrator's
watcher removes the map entry itself, and the distinguished "stopped
prematurely" error exists only in the generic registry
(`Sessions.StopSession`), which the orchestrator does not use. -/
theorem stopSession_after_self_termination_not_found
    (env : AmpEnv) (rtspURL proxyHost : String) (st st' : AmpState)
    (desc : StartSessionValue) (sess : ProxySession)
    (hstart : startSession env rtspURL proxyHost st desc = (st', none))
    (hsess : lookupKey st'.sessions (joinHostPort desc.ReceiverHost desc.Port) = some sess) :
    stopSession (observeFire st' sess)
        { ReceiverHost := desc.ReceiverHost, Port := desc.Port } =
      (observeFire st' sess,
       some ("Session not found for client " ++
         joinHostPort desc.ReceiverHost desc.Port)) := by
  obtain ⟨sess', hsessions, hclient, h1, h2⟩ := startSession_ok_inv hstart
  have hs : sess = sess' := by
    rw [hsessions, lookup_insert_self] at hsess
    exact (Option.some.inj hsess).symm
  have hsc : sess.client = joinHostPort desc.ReceiverHost desc.Port := by
    rw [hs]
    exact hclient
  have hlook : lookupKey (observeFire st' sess).sessions
      (joinHostPort desc.ReceiverHost desc.Port) = none := by
    have hofs : (observeFire st' sess).sessions = removeKey st'.sessions sess.client := rfl
    rw [hofs, hsc]
    exact lookup_remove_self st'.sessions _
  unfold stopSession
  dsimp only
  simp only [hlook]

/-- C5 witness: the amended statement at the concrete end-to-end scenario
(start `descW`, backend self-terminates, explicit stop follows). -/
theorem stopSession_after_self_termination_not_found_witness :
    stopSession (observeFire stAfterStart sessW)
        { ReceiverHost := "127.0.0.1", Port := 6000 } =
      (observeFire stAfterStart sessW,
       some ("Session not found for client " ++ joinHostPort "127.0.0.1" 6000)) :=
  stopSession_after_self_termination_not_found ampEnvOk baseURL "10.0.0.1" st0
    stAfterStart descW sessW rfl rfl
